import Mathlib

/-
Shallow embedding of the Gmail-GEN aggregation-and-dispatch pipeline of the
terracanada repository.  The embedded functions follow
src/backend-terracanada/src/services/GmailGenService.ts (the authoritative
backend service) and, for the sent-summary view, the variant service body in
src/unnamed/part_001 (its getResumenEnviosFecha, which the claims cite).

Modelling conventions:
- JS numbers carrying money are modelled as exact amounts in cents (Int);
  the code only ever adds them and formats them with toFixed(2).
- JS strings are Lean Strings; the JS string operations used by the service
  (toUpperCase/startsWith on ASCII codes, trim, truthiness of strings) are
  re-defined below on the underlying character lists so that they compute.
- The external delivery webhook (axios.post) and the store procedure
  registrar_envio_correo_con_detalles fail independently of the service code;
  their outcomes enter the embedded dispatch as explicit parameters.
-/

namespace GmailGen

/-- Uppercase one ASCII character, as toUpperCase acts on the ASCII range. -/
def mayuscula (c : Char) : Char :=
  if 97 ≤ c.toNat && c.toNat ≤ 122 then Char.ofNat (c.toNat - 32) else c

/-- JS String.prototype.toUpperCase restricted to ASCII data. -/
def aMayusculas (s : String) : String :=
  String.mk (s.data.map mayuscula)

/-- Character-list version of String.prototype.startsWith: first argument is
the sought pattern, second the data searched. -/
def esPrefijoDe : List Char → List Char → Bool
  | [], _ => true
  | _ :: _, [] => false
  | x :: xs, y :: ys => x == y && esPrefijoDe xs ys

/-- Whitespace recognizer used by the trim model. -/
def esEspacio (c : Char) : Bool :=
  c = ' ' || c = '\t' || c = '\n' || c = '\r'

/-- JS String.prototype.trim: drop whitespace from both ends. -/
def recortar (s : String) : String :=
  String.mk (((s.data.dropWhile esEspacio).reverse.dropWhile esEspacio).reverse)

/-- JS value `a || b` for an optional string: the default is taken when the
left side is absent or empty (falsy). -/
def oSiVacia : Option String → String → String
  | none, d => d
  | some s, d => if s = "" then d else s

/-- The `(texto && texto.trim()) || porDefecto` pattern of
enviarCorreoProveedor: a present, non-blank override is used in trimmed form,
anything else falls back to the derived default. -/
def textoFinal (ov : Option String) (porDefecto : String) : String :=
  match ov with
  | none => porDefecto
  | some s => if s = "" then porDefecto
      else if recortar s = "" then porDefecto else recortar s

/-- Number.prototype.toFixed(2) on an exact amount in cents. -/
def toFixed2 (cents : Int) : String :=
  let signo := if cents < 0 then "-" else ""
  let n := cents.natAbs
  signo ++ toString (n / 100) ++ "." ++
    (if n % 100 < 10 then "0" else "") ++ toString (n % 100)

/-- The default body template of enviarCorreoProveedor. -/
def mensajeDefecto (cantidadPagos : Nat) (montoTotal : Int) (fechaResumen : String) : String :=
  "Estimado proveedor, le enviamos el resumen de " ++ toString cantidadPagos ++
    " pago(s) por un total de " ++ toFixed2 montoTotal ++
    " correspondiente a la fecha " ++ fechaResumen ++ "."

/-- The `String(p.codigo || '').toUpperCase().startsWith('BANCO-')` test
that routes a payment to the bank channel. -/
def esBancario (codigo : String) : Bool :=
  esPrefijoDe "BANCO-".data (aMayusculas codigo).data

/-- Byte-order strict comparison on character data (UTF-8 byte order agrees
with code-point order). -/
def cadenaLt (a b : List Char) : Bool :=
  match a, b with
  | [], [] => false
  | [], _ :: _ => true
  | _ :: _, [] => false
  | x :: xs, y :: ys =>
    if x.toNat < y.toNat then true
    else if y.toNat < x.toNat then false
    else cadenaLt xs ys

/-- Strict byte order on provider display names. -/
def nombreLt (a b : String) : Bool := cadenaLt a.data b.data

/-- Non-strict byte order on provider display names. -/
def nombreLe (a b : String) : Bool := !(nombreLt b a)

/-- One row of the pagos table, with the proveedor join columns the service
selects.  estado is the lifecycle state string, monto is cents. -/
structure Pago where
  id_pago : Nat
  usuario_id : Nat
  proveedor_id : Nat
  cliente : String
  monto : Int
  codigo : String
  estado : String
  esta_activo : Bool
  fecha_pago : String
deriving DecidableEq

/-- One row of the proveedores table. -/
structure Proveedor where
  id : Nat
  nombre : String
  correo : String
deriving DecidableEq

/-- The nine arguments the service passes to
registrar_envio_correo_con_detalles; they are what one persisted Delivery row
can possibly contain.  Note there is no status among them. -/
structure Envio where
  proveedor_id : Nat
  usuario_envio_id : Nat
  fecha_resumen : String
  cantidad_pagos : Nat
  monto_total : Int
  asunto_correo : String
  cuerpo_correo : String
  ids_pagos_tarjeta : List Nat
  ids_pagos_bancario : List Nat
deriving DecidableEq

/-- The persistent store: payment rows, provider rows, the claim links of
detalle_envio_correo (pago ids already consumed by some delivery), and the
recorded deliveries. -/
structure DB where
  pagos : List Pago
  proveedores : List Proveedor
  detalle_envio_correo : List Nat
  envios : List Envio
deriving DecidableEq

/-- One result row of the direct eligible-payments query of
obtenerPagosDirectos. -/
structure Fila where
  id_pago : Nat
  cliente : String
  monto : Int
  codigo : String
  id_proveedor : Nat
  nombre_proveedor : String
  correo : String
deriving DecidableEq

/-- The pr lookup of the JOIN proveedores pr ON p.proveedor_id = pr.id. -/
def buscarProveedor (db : DB) (pid : Nat) : Option Proveedor :=
  db.proveedores.find? (fun pr => pr.id == pid)

/-- The WHERE clause of the direct query: owning user, state PAGADO, active,
no claim link in detalle_envio_correo, and the scope date. -/
def pagoElegible (db : DB) (usuarioId : Nat) (fecha : String) (p : Pago) : Bool :=
  p.usuario_id == usuarioId && p.estado == "PAGADO" && p.esta_activo &&
    !(db.detalle_envio_correo.contains p.id_pago) && p.fecha_pago == fecha

/-- The optional `AND pr.id = :proveedor_id` clause; it is appended only when
the JS value proveedorId is truthy, so a zero id disables the filter. -/
def filtroProveedor (proveedorId : Option Nat) (pr : Proveedor) : Bool :=
  match proveedorId with
  | none => true
  | some pid => if pid == 0 then true else pr.id == pid

/-- The SELECT list of the direct query. -/
def filaDe (p : Pago) (pr : Proveedor) : Fila :=
  ⟨p.id_pago, p.cliente, p.monto, p.codigo, pr.id, pr.nombre, pr.correo⟩

/-- The join-and-filter part of the direct query, in table order. -/
def filasElegibles (db : DB) (usuarioId : Nat) (fecha : String)
    (proveedorId : Option Nat) : List Fila :=
  db.pagos.filterMap (fun p =>
    match buscarProveedor db p.proveedor_id with
    | none => none
    | some pr =>
      if pagoElegible db usuarioId fecha p && filtroProveedor proveedorId pr
      then some (filaDe p pr) else none)

/-- Stable insertion of a row into a name-sorted list: the row, which
precedes the list in encounter order, goes past the rows strictly below it
and in front of the first row not strictly below it, so equal names keep
their encounter order. -/
def insertarPorNombre (r : Fila) : List Fila → List Fila
  | [] => [r]
  | x :: xs =>
    if nombreLt x.nombre_proveedor r.nombre_proveedor then x :: insertarPorNombre r xs
    else r :: x :: xs

/-- Stable sort by provider display name. -/
def ordenarPorNombre : List Fila → List Fila
  | [] => []
  | x :: xs => insertarPorNombre x (ordenarPorNombre xs)

/-- Modelled from the spec: the direct query of obtenerPagosDirectos runs in
the excluded persistence layer; its SQL text (selection, join and
`ORDER BY pr.nombre ASC`) is in the source, and the spec fixes the collation
of that ORDER BY as ascending case-sensitive byte order. -/
def obtenerPagosDirectos (db : DB) (usuarioId : Nat) (fecha : String)
    (proveedorId : Option Nat) : List Fila :=
  ordenarPorNombre (filasElegibles db usuarioId fecha proveedorId)

/-- The per-payment record exposed inside a group. -/
structure GmailPaymentRecord where
  id : Nat
  cliente : String
  monto : Int
  codigo : String
deriving DecidableEq

/-- The value held per provider name in the mapGroups Map of
getResumenPagosDia. -/
structure GrupoAcc where
  id_proveedor : Nat
  correo : String
  pagos : List GmailPaymentRecord
  monto_total : Int
  cantidad_pagos : Nat
deriving DecidableEq

/-- The row-to-record projection shared by the summary and dispatch paths. -/
def registroDeFila (r : Fila) : GmailPaymentRecord :=
  ⟨r.id_pago, r.cliente, r.monto, r.codigo⟩

/-- One forEach step of the grouping loop of getResumenPagosDia: the Map is an
insertion-ordered association list keyed by provider name; an existing entry
accumulates the row, a new key is appended. -/
def agregarFila (acc : List (String × GrupoAcc)) (r : Fila) : List (String × GrupoAcc) :=
  match acc with
  | [] => [(r.nombre_proveedor,
      ⟨r.id_proveedor, r.correo, [registroDeFila r], r.monto, 1⟩)]
  | (k, g) :: resto =>
    if k = r.nombre_proveedor then
      (k, ⟨g.id_proveedor, g.correo, g.pagos ++ [registroDeFila r],
           g.monto_total + r.monto, g.cantidad_pagos + 1⟩) :: resto
    else (k, g) :: agregarFila resto r

/-- The group shape returned to the presentation layer. -/
structure GmailEmailGroup where
  id : Nat
  proveedorNombre : String
  correoContacto : String
  color : String
  estado : String
  pagos : List GmailPaymentRecord
  totalPagos : Nat
  totalMonto : Int
deriving DecidableEq

/-- The mapGroups.forEach loop of getResumenPagosDia: each accumulated entry
becomes a group, with the alternating display color driven by the index. -/
def gruposDesde (estado : String) : Nat → List (String × GrupoAcc) → List GmailEmailGroup
  | _, [] => []
  | i, (nombre, d) :: resto =>
    { id := d.id_proveedor, proveedorNombre := nombre, correoContacto := d.correo,
      color := if i % 2 == 0 then "teal" else "brown", estado := estado,
      pagos := d.pagos, totalPagos := d.cantidad_pagos,
      totalMonto := d.monto_total } :: gruposDesde estado (i + 1) resto

/-- The success-or-error envelope every service method returns. -/
inductive ServiceResponse (α : Type) where
  | ok (data : α) (statusCode : Nat)
  | err (error : String) (statusCode : Nat)
deriving DecidableEq

/-- getResumenPagosDia: the read-only daily summary.  fechaLocal is the
locale-formatted current date the source reads from the environment, passed
here explicitly; the optional fecha argument wins when truthy. -/
def getResumenPagosDia (db : DB) (usuarioId : Nat) (fecha : Option String)
    (fechaLocal : String) : ServiceResponse (List GmailEmailGroup) :=
  let fechaResumen := oSiVacia fecha fechaLocal
  let filas := obtenerPagosDirectos db usuarioId fechaResumen none
  ServiceResponse.ok (gruposDesde "pendiente" 0 (filas.foldl agregarFila [])) 200

/-- A JSON scalar as the webhook may return it; enough to decide JS
truthiness and strict equality with false. -/
inductive JsVal where
  | vnull
  | vbool (b : Bool)
  | vnum (n : Int)
  | vstr (s : String)
deriving DecidableEq

/-- JS truthiness of a JSON scalar. -/
def veraz : JsVal → Bool
  | .vnull => false
  | .vbool b => b
  | .vnum n => n != 0
  | .vstr s => s != ""

/-- JS truthiness of an optional object field (absent reads as undefined). -/
def campoVeraz : Option JsVal → Bool
  | none => false
  | some v => veraz v

/-- The two response-body fields the service inspects. -/
structure WebhookBody where
  code : Option JsVal
  estado : Option JsVal
deriving DecidableEq

/-- Outcome of the axios.post to the delivery webhook: either the promise
resolved with a body (none models a null response.data), or it threw — a
transport error or the 15 s timeout. -/
inductive GatewayOutcome where
  | respuesta (body : Option WebhookBody)
  | excepcion (msg : String)
deriving DecidableEq

/-- The estadoEnvio computation of enviarCorreoProveedor: starts as ENVIADO
and becomes ERROR_WEBHOOK when the call threw, or when the body has a truthy
code and an estado strictly equal to false. -/
def estadoEnvioDe : GatewayOutcome → String
  | .excepcion _ => "ERROR_WEBHOOK"
  | .respuesta none => "ENVIADO"
  | .respuesta (some b) =>
    if campoVeraz b.code && b.estado == some (JsVal.vbool false)
    then "ERROR_WEBHOOK" else "ENVIADO"

/-- The webhookResponseData variable: the body when the call resolved, still
null when it threw. -/
def datosWebhookDe : GatewayOutcome → Option WebhookBody
  | .respuesta body => body
  | .excepcion _ => none

/-- The parsed JSON envelope returned by the store procedure. -/
structure RegistrarParsed where
  status : Nat
  message : Option String
deriving DecidableEq

/-- Outcome of the registration db.query: the call may throw (store
unreachable), or return a result that parses to null or to an envelope. -/
inductive StoreOutcome where
  | lanzada (msg : String)
  | parseado (p : Option RegistrarParsed)
deriving DecidableEq

/-- The state change of one successful claim-and-record write: the Delivery
row is appended and every consumed payment id becomes linked. -/
def dbTrasRegistro (db : DB) (e : Envio) : DB :=
  { db with
    envios := db.envios ++ [e],
    detalle_envio_correo :=
      db.detalle_envio_correo ++ (e.ids_pagos_tarjeta ++ e.ids_pagos_bancario) }

/-- Modelled from the spec: `public.registrar_envio_correo_con_detalles` lives
in the excluded persistence layer; per the spec it persists the Delivery row
and, in the same all-or-nothing write, links every consumed payment id in
detalle_envio_correo, doing nothing when it reports a status of 400 or more.
It receives exactly the nine arguments of Envio — the caller passes no
delivery status. -/
def registrarEnvioCorreoConDetalles (db : DB) (e : Envio)
    (p : Option RegistrarParsed) : DB × Option RegistrarParsed :=
  match p with
  | none => (db, none)
  | some parsed =>
    if 400 ≤ parsed.status then (db, some parsed)
    else (dbTrasRegistro db e, some parsed)

/-- The card-channel identifier set of the dispatch: payments whose code does
not pass the BANCO- test, in encounter order. -/
def idsPagosTarjeta (pagos : List GmailPaymentRecord) : List Nat :=
  (pagos.filter (fun p => !(esBancario p.codigo))).map (fun p => p.id)

/-- The bank-channel identifier set of the dispatch. -/
def idsPagosBancario (pagos : List GmailPaymentRecord) : List Nat :=
  (pagos.filter (fun p => esBancario p.codigo)).map (fun p => p.id)

/-- The infoCorreoExtendido object of the dispatch. -/
structure InfoCorreo where
  fecha : String
  correo : String
  proveedor : String
  monto_total : Int
  cantidad_pagos : Nat
  asunto : String
  mensaje : String
deriving DecidableEq

/-- The data object of a successful dispatch response. -/
structure DeliveryReport where
  envio : Envio
  infoCorreo : InfoCorreo
  infoPagos : List GmailPaymentRecord
  webhook : Option WebhookBody
deriving DecidableEq

/-- enviarCorreoProveedor: the dispatch coordinator.  Returns the service
response together with the store state after the attempt.  gw and st are the
outcomes of the two external calls (webhook, then registration). -/
def enviarCorreoProveedor (db : DB) (usuarioId proveedorId : Nat)
    (fecha asunto mensaje : Option String) (fechaLocal : String)
    (gw : GatewayOutcome) (st : StoreOutcome) :
    ServiceResponse DeliveryReport × DB :=
  let fechaResumen := oSiVacia fecha fechaLocal
  match obtenerPagosDirectos db usuarioId fechaResumen (some proveedorId) with
  | [] =>
    (.err "No se encontraron pagos pendientes para este proveedor (Pagado + Activo)." 404, db)
  | primeraFila :: resto =>
    let filas := primeraFila :: resto
    let proveedorNombre := primeraFila.nombre_proveedor
    let correoProveedor := primeraFila.correo
    let pagos := filas.map registroDeFila
    let cantidadPagos := pagos.length
    let montoTotal := pagos.foldl (fun acc p => acc + p.monto) 0
    let asuntoFinal := textoFinal asunto ("Confirmación de pagos - " ++ proveedorNombre)
    let mensajeFinal := textoFinal mensaje (mensajeDefecto cantidadPagos montoTotal fechaResumen)
    let infoCorreo : InfoCorreo :=
      ⟨fechaResumen, correoProveedor, proveedorNombre, montoTotal, cantidadPagos,
       asuntoFinal, mensajeFinal⟩
    -- estadoEnvio is computed here exactly as in the source and, exactly as
    -- in the source, never used again: it reaches neither the registration
    -- arguments nor the response.
    let _estadoEnvio := estadoEnvioDe gw
    let webhookResponseData := datosWebhookDe gw
    let e : Envio :=
      ⟨proveedorId, usuarioId, fechaResumen, cantidadPagos, montoTotal,
       asuntoFinal, mensajeFinal, idsPagosTarjeta pagos, idsPagosBancario pagos⟩
    match st with
    | .lanzada msg => (.err msg 500, db)
    | .parseado p =>
      match registrarEnvioCorreoConDetalles db e p with
      | (db2, none) => (.err "Error registrando el envío de correo" 500, db2)
      | (db2, some parsed) =>
        if 400 ≤ parsed.status then
          (.err (oSiVacia parsed.message "Error registrando el envío de correo")
             parsed.status, db2)
        else
          (.ok ⟨e, infoCorreo, pagos, webhookResponseData⟩ 200, db2)

/-- The response report with its raw webhook field erased. -/
def informeSinWebhook :
    ServiceResponse DeliveryReport → ServiceResponse (Envio × InfoCorreo × List GmailPaymentRecord)
  | .ok r c => .ok (r.envio, r.infoCorreo, r.infoPagos) c
  | .err e c => .err e c

/-- The per-provider payload getResumenEnviosFecha (src/unnamed/part_001)
reads from the resumen_envios_fecha_get result: the provider columns, the
member payments, and the stored resumen object whose fields are kept only
when they are numbers (the typeof checks of the source). -/
structure DetallesEnvio where
  id_proveedor : Nat
  correo : String
  pagos : List GmailPaymentRecord
  resumen_cantidad_pagos : Option Nat
  resumen_monto_total : Option Int
deriving DecidableEq

/-- The parsed envelope of resumen_envios_fecha_get after the ?? defaulting
of the source; data is the Object.entries list in object order, a none entry
modelling a null detalles value the loop skips. -/
structure ResumenEnviosParsed where
  status : Nat
  message : String
  data : List (String × Option DetallesEnvio)
deriving DecidableEq

/-- The proveedores.forEach loop of getResumenEnviosFecha: null entries are
skipped but still advance the forEach index that drives the color. -/
def gruposEnvioDesde : Nat → List (String × Option DetallesEnvio) → List GmailEmailGroup
  | _, [] => []
  | i, (_, none) :: resto => gruposEnvioDesde (i + 1) resto
  | i, (nombre, some d) :: resto =>
    { id := d.id_proveedor, proveedorNombre := nombre, correoContacto := d.correo,
      color := if i % 2 == 0 then "teal" else "brown", estado := "enviado",
      pagos := d.pagos,
      totalPagos := d.resumen_cantidad_pagos.getD d.pagos.length,
      totalMonto := d.resumen_monto_total.getD
        (d.pagos.foldl (fun acc p => acc + p.monto) 0) } :: gruposEnvioDesde (i + 1) resto

/-- getResumenEnviosFecha of src/unnamed/part_001, from the parsed store
response onward (the query itself runs in the excluded persistence layer);
none models a result that parsed to null. -/
def getResumenEnviosFecha (parsed : Option ResumenEnviosParsed) :
    ServiceResponse (List GmailEmailGroup) :=
  match parsed with
  | none => .err "Error obteniendo resumen de envíos para Gmail-GEN" 500
  | some r =>
    if 400 ≤ r.status then
      .err (if r.message = "" then "Error obteniendo resumen de envíos para Gmail-GEN"
            else r.message) r.status
    else .ok (gruposEnvioDesde 0 r.data) 200

/-- Example store: one eligible card payment of 10.00 for provider 7. -/
def dbUnaTarjeta : DB :=
  ⟨[⟨1, 1, 7, "Cliente A", 1000, "TARJ-001", "PAGADO", true, "2024-05-01"⟩],
   [⟨7, "Proveedor Uno", "uno@proveedores.com"⟩], [], []⟩

/-- Example store: one eligible payment whose code is lowercase banco-001. -/
def dbBancoMinusculas : DB :=
  ⟨[⟨1, 1, 7, "Cliente A", 1000, "banco-001", "PAGADO", true, "2024-05-01"⟩],
   [⟨7, "Proveedor Uno", "uno@proveedores.com"⟩], [], []⟩

/-- Example store: two providers whose rows arrive in reverse name order,
with two payments (10.00 and 15.50) for the provider named Alfa. -/
def dbDosProveedores : DB :=
  ⟨[⟨3, 1, 9, "Cliente C", 500, "TARJ-003", "PAGADO", true, "2024-05-01"⟩,
    ⟨1, 1, 7, "Cliente A", 1000, "TARJ-001", "PAGADO", true, "2024-05-01"⟩,
    ⟨2, 1, 7, "Cliente B", 1550, "BANCO-002", "PAGADO", true, "2024-05-01"⟩],
   [⟨9, "Zeta Importaciones", "zeta@proveedores.com"⟩,
    ⟨7, "Alfa Comercial", "alfa@proveedores.com"⟩], [], []⟩

/-- A webhook body reporting success. -/
def cuerpoExito : WebhookBody := ⟨none, some (JsVal.vbool true)⟩

/-- A gateway outcome whose body reports success. -/
def gwExito : GatewayOutcome := .respuesta (some cuerpoExito)

/-- A thrown transport failure (the axios timeout). -/
def gwTimeout : GatewayOutcome := .excepcion "timeout of 15000ms exceeded"

/-- A store outcome whose envelope reports success. -/
def stExito : StoreOutcome := .parseado (some ⟨200, none⟩)

/-- Sent-summary example: the stored resumen totals (999.00, 5 payments)
disagree with the single member payment of 10.00. -/
def detallesCacheados : DetallesEnvio :=
  ⟨7, "uno@proveedores.com", [⟨1, "Cliente A", 1000, "TARJ-001"⟩], some 5, some 99900⟩

/-- The parsed sent-summary response carrying detallesCacheados. -/
def resumenEnviosCacheado : ResumenEnviosParsed :=
  ⟨200, "", [("Proveedor Uno", some detallesCacheados)]⟩

/-- The group getResumenEnviosFecha builds from resumenEnviosCacheado. -/
def grupoCacheado : GmailEmailGroup :=
  ⟨7, "Proveedor Uno", "uno@proveedores.com", "teal", "enviado",
   [⟨1, "Cliente A", 1000, "TARJ-001"⟩], 5, 99900⟩

/-- The groups of the resumen of dbDosProveedores, extracted for the sorted
witness. -/
def gruposDosProveedores : List GmailEmailGroup :=
  match getResumenPagosDia dbDosProveedores 1 none "2024-05-01" with
  | .ok gs _ => gs
  | .err _ _ => []

/-- The report of a plain successful dispatch of dbUnaTarjeta, extracted for
the claim-consumption witness. -/
def informeExito : DeliveryReport :=
  match (enviarCorreoProveedor dbUnaTarjeta 1 7 (some "2024-05-01")
      none none "2024-05-01" gwExito stExito).1 with
  | .ok r _ => r
  | .err _ _ => ⟨⟨0, 0, "", 0, 0, "", "", [], []⟩, ⟨"", "", "", 0, 0, "", ""⟩, [], none⟩

/-- The first group of gruposDosProveedores, spelled out. -/
def grupoAlfa : GmailEmailGroup :=
  ⟨7, "Alfa Comercial", "alfa@proveedores.com", "teal", "pendiente",
   [⟨1, "Cliente A", 1000, "TARJ-001"⟩, ⟨2, "Cliente B", 1550, "BANCO-002"⟩], 2, 2550⟩

/-- The report of a dispatch of dbUnaTarjeta with the subject override
" Aviso " (note the surrounding blanks), extracted for the composition
theorems. -/
def informeAviso : DeliveryReport :=
  match (enviarCorreoProveedor dbUnaTarjeta 1 7 (some "2024-05-01")
      (some " Aviso ") none "2024-05-01" gwExito stExito).1 with
  | .ok r _ => r
  | .err _ _ => ⟨⟨0, 0, "", 0, 0, "", "", [], []⟩, ⟨"", "", "", 0, 0, "", ""⟩, [], none⟩

/-- The running sum the service computes with reduce over the member
payments. -/
def sumaMontos (pagos : List GmailPaymentRecord) : Int :=
  pagos.foldl (fun acc p => acc + p.monto) 0

/-- Group order used in the sortedness statements: the later name is not
strictly below the earlier one in byte order. -/
def claveLe (a b : String) : Prop := nombreLt b a = false

/-- Row order induced by provider names. -/
def filaLe (a b : Fila) : Prop := nombreLt b.nombre_proveedor a.nombre_proveedor = false

/-- The insertion-ordered key list of the grouping Map. -/
def claves (acc : List (String × GrupoAcc)) : List String := acc.map Prod.fst

/-- The invariant of one grouping-Map entry: its stored totals agree with its
member payments. -/
def grupoConsistente (g : GrupoAcc) : Prop :=
  g.monto_total = sumaMontos g.pagos ∧ g.cantidad_pagos = g.pagos.length

theorem cadenaLt_asimetrica (a : List Char) :
    ∀ b : List Char, cadenaLt a b = true → cadenaLt b a = false := by
  induction a with
  | nil =>
    intro b h
    cases b with
    | nil => simp [cadenaLt] at h
    | cons y ys => simp [cadenaLt]
  | cons x xs ih =>
    intro b h
    cases b with
    | nil => simp [cadenaLt] at h
    | cons y ys =>
      simp only [cadenaLt] at h ⊢
      by_cases hxy : x.toNat < y.toNat
      · rw [if_pos hxy] at h
        rw [if_neg (by omega), if_pos hxy]
      · rw [if_neg hxy] at h
        by_cases hyx : y.toNat < x.toNat
        · rw [if_pos hyx] at h
          exact absurd h (by simp)
        · rw [if_neg hyx] at h
          rw [if_neg hyx, if_neg hxy]
          exact ih ys h

theorem cadenaLt_neg_trans (a : List Char) :
    ∀ b c : List Char, cadenaLt a b = false → cadenaLt b c = false →
      cadenaLt a c = false := by
  induction a with
  | nil =>
    intro b c h1 h2
    cases b with
    | nil => exact h2
    | cons y ys => simp [cadenaLt] at h1
  | cons x xs ih =>
    intro b c h1 h2
    cases b with
    | nil =>
      cases c with
      | nil => rfl
      | cons z zs => simp [cadenaLt] at h2
    | cons y ys =>
      cases c with
      | nil => rfl
      | cons z zs =>
        simp only [cadenaLt] at h1 h2 ⊢
        by_cases hxy : x.toNat < y.toNat
        · rw [if_pos hxy] at h1
          exact absurd h1 (by simp)
        · rw [if_neg hxy] at h1
          by_cases hyz : y.toNat < z.toNat
          · rw [if_pos hyz] at h2
            exact absurd h2 (by simp)
          · rw [if_neg hyz] at h2
            by_cases hxz : x.toNat < z.toNat
            · exfalso
              omega
            · rw [if_neg hxz]
              by_cases hzx : z.toNat < x.toNat
              · rw [if_pos hzx]
              · rw [if_neg hzx]
                have hyx : ¬ y.toNat < x.toNat := by omega
                have hzy : ¬ z.toNat < y.toNat := by omega
                rw [if_neg hyx] at h1
                rw [if_neg hzy] at h2
                exact ih ys zs h1 h2

theorem nombreLt_asimetrica (a b : String) (h : nombreLt a b = true) :
    nombreLt b a = false :=
  cadenaLt_asimetrica a.data b.data h

theorem nombreLt_neg_trans (a b c : String) (h1 : nombreLt a b = false)
    (h2 : nombreLt b c = false) : nombreLt a c = false :=
  cadenaLt_neg_trans a.data b.data c.data h1 h2

theorem mem_insertarPorNombre (y r : Fila) (l : List Fila) :
    y ∈ insertarPorNombre r l ↔ y = r ∨ y ∈ l := by
  induction l with
  | nil => simp [insertarPorNombre]
  | cons x xs ih =>
    simp only [insertarPorNombre]
    by_cases hx : nombreLt x.nombre_proveedor r.nombre_proveedor = true
    · rw [if_pos hx]
      simp [ih]
      tauto
    · rw [if_neg hx]
      simp

theorem mem_ordenarPorNombre (y : Fila) (l : List Fila) :
    y ∈ ordenarPorNombre l ↔ y ∈ l := by
  induction l with
  | nil => simp [ordenarPorNombre]
  | cons x xs ih =>
    simp only [ordenarPorNombre]
    rw [mem_insertarPorNombre]
    simp [ih]

theorem pairwise_insertarPorNombre (r : Fila) (l : List Fila)
    (h : l.Pairwise filaLe) : (insertarPorNombre r l).Pairwise filaLe := by
  induction l with
  | nil => simp [insertarPorNombre, List.Pairwise]
  | cons x xs ih =>
    rcases List.pairwise_cons.mp h with ⟨hx, hxs⟩
    simp only [insertarPorNombre]
    by_cases hc : nombreLt x.nombre_proveedor r.nombre_proveedor = true
    · rw [if_pos hc]
      refine List.pairwise_cons.mpr ⟨?_, ih hxs⟩
      intro y hy
      rcases (mem_insertarPorNombre y r xs).mp hy with hyr | hyxs
      · subst hyr
        exact nombreLt_asimetrica _ _ hc
      · exact hx y hyxs
    · rw [if_neg hc]
      refine List.pairwise_cons.mpr ⟨?_, h⟩
      intro y hy
      rcases List.mem_cons.mp hy with hyx | hyxs
      · subst hyx
        simpa [filaLe] using hc
      · exact nombreLt_neg_trans _ _ _ (hx y hyxs) (by simpa using hc)

theorem pairwise_ordenarPorNombre (l : List Fila) :
    (ordenarPorNombre l).Pairwise filaLe := by
  induction l with
  | nil => simp [ordenarPorNombre]
  | cons x xs ih => exact pairwise_insertarPorNombre x (ordenarPorNombre xs) ih

theorem claves_agregarFila (acc : List (String × GrupoAcc)) (r : Fila) :
    claves (agregarFila acc r) =
      if r.nombre_proveedor ∈ claves acc then claves acc
      else claves acc ++ [r.nombre_proveedor] := by
  induction acc with
  | nil => simp [agregarFila, claves]
  | cons e resto ih =>
    rcases e with ⟨k, g⟩
    by_cases hk : k = r.nombre_proveedor
    · subst hk
      simp [agregarFila, claves]
    · have hne : r.nombre_proveedor ≠ k := fun he => hk he.symm
      simp only [agregarFila, if_neg hk, claves, List.map_cons] at ih ⊢
      rw [ih]
      by_cases hm : r.nombre_proveedor ∈ List.map Prod.fst resto
      · rw [if_pos hm, if_pos (by simp [hm])]
      · rw [if_neg hm, if_neg (by simp [hm, hne])]
        simp

theorem claves_foldl_pairwise (rows : List Fila) :
    ∀ acc : List (String × GrupoAcc),
      (claves acc).Pairwise claveLe →
      (∀ k ∈ claves acc, ∀ r ∈ rows, nombreLt r.nombre_proveedor k = false) →
      rows.Pairwise filaLe →
      (claves (rows.foldl agregarFila acc)).Pairwise claveLe := by
  induction rows with
  | nil =>
    intro acc hacc _ _
    simpa using hacc
  | cons r rest ih =>
    intro acc hacc hconn hrows
    rcases List.pairwise_cons.mp hrows with ⟨hr, hrest⟩
    simp only [List.foldl_cons]
    apply ih
    · rw [claves_agregarFila]
      by_cases hm : r.nombre_proveedor ∈ claves acc
      · rw [if_pos hm]
        exact hacc
      · rw [if_neg hm]
        apply List.pairwise_append.mpr
        refine ⟨hacc, by simp, ?_⟩
        intro k hk y hy
        obtain rfl := List.mem_singleton.mp hy
        exact hconn k hk r (List.mem_cons_self _ _)
    · intro k hk r2 hr2
      rw [claves_agregarFila] at hk
      by_cases hm : r.nombre_proveedor ∈ claves acc
      · rw [if_pos hm] at hk
        exact hconn k hk r2 (List.mem_cons_of_mem _ hr2)
      · rw [if_neg hm] at hk
        rcases List.mem_append.mp hk with hk1 | hk2
        · exact hconn k hk1 r2 (List.mem_cons_of_mem _ hr2)
        · obtain rfl := List.mem_singleton.mp hk2
          exact hr r2 hr2
    · exact hrest

theorem nombres_gruposDesde (estado : String) (acc : List (String × GrupoAcc)) :
    ∀ i, (gruposDesde estado i acc).map (fun g => g.proveedorNombre) = claves acc := by
  induction acc with
  | nil =>
    intro i
    simp [gruposDesde, claves]
  | cons e resto ih =>
    rcases e with ⟨k, d⟩
    intro i
    simp only [gruposDesde, claves, List.map_cons] at ih ⊢
    rw [ih (i + 1)]

theorem sumaMontos_append (l : List GmailPaymentRecord) (p : GmailPaymentRecord) :
    sumaMontos (l ++ [p]) = sumaMontos l + p.monto := by
  simp [sumaMontos, List.foldl_append]

theorem consistente_agregarFila (acc : List (String × GrupoAcc)) (r : Fila)
    (h : ∀ e ∈ acc, grupoConsistente e.2) :
    ∀ e ∈ agregarFila acc r, grupoConsistente e.2 := by
  induction acc with
  | nil =>
    intro e he
    simp only [agregarFila, List.mem_singleton] at he
    subst he
    exact ⟨by simp [sumaMontos, registroDeFila], by simp⟩
  | cons x resto ih =>
    rcases x with ⟨k, g⟩
    intro e he
    simp only [agregarFila] at he
    by_cases hk : k = r.nombre_proveedor
    · rw [if_pos hk] at he
      rcases List.mem_cons.mp he with he1 | he2
      · subst he1
        have h1 : g.monto_total = sumaMontos g.pagos :=
          (h (k, g) (List.mem_cons_self _ _)).1
        have h2 : g.cantidad_pagos = g.pagos.length :=
          (h (k, g) (List.mem_cons_self _ _)).2
        exact ⟨by simp [sumaMontos_append, h1, registroDeFila],
               by simp [h2]⟩
      · exact h e (List.mem_cons_of_mem _ he2)
    · rw [if_neg hk] at he
      rcases List.mem_cons.mp he with he1 | he2
      · subst he1
        exact h (k, g) (List.mem_cons_self _ _)
      · exact ih (fun e2 he2b => h e2 (List.mem_cons_of_mem _ he2b)) e he2

theorem consistente_foldl (rows : List Fila) :
    ∀ acc : List (String × GrupoAcc), (∀ e ∈ acc, grupoConsistente e.2) →
      ∀ e ∈ rows.foldl agregarFila acc, grupoConsistente e.2 := by
  induction rows with
  | nil =>
    intro acc h
    simpa using h
  | cons r rest ih =>
    intro acc h
    simp only [List.foldl_cons]
    exact ih _ (consistente_agregarFila acc r h)

theorem miembro_gruposDesde (estado : String) (acc : List (String × GrupoAcc)) :
    ∀ i g, g ∈ gruposDesde estado i acc →
      ∃ k d, (k, d) ∈ acc ∧ g.pagos = d.pagos ∧ g.totalMonto = d.monto_total ∧
        g.totalPagos = d.cantidad_pagos := by
  induction acc with
  | nil =>
    intro i g hg
    simp [gruposDesde] at hg
  | cons e resto ih =>
    rcases e with ⟨k, d⟩
    intro i g hg
    simp only [gruposDesde] at hg
    rcases List.mem_cons.mp hg with h1 | h2
    · exact ⟨k, d, List.mem_cons_self _ _, by subst h1; rfl, by subst h1; rfl,
             by subst h1; rfl⟩
    · rcases ih (i + 1) g h2 with ⟨k2, d2, hm, h3, h4, h5⟩
      exact ⟨k2, d2, List.mem_cons_of_mem _ hm, h3, h4, h5⟩

theorem miembro_gruposEnvioDesde (entries : List (String × Option DetallesEnvio)) :
    ∀ i g, g ∈ gruposEnvioDesde i entries →
      ∃ nombre d, (nombre, some d) ∈ entries ∧ g.pagos = d.pagos ∧
        g.totalMonto = d.resumen_monto_total.getD (sumaMontos d.pagos) ∧
        g.totalPagos = d.resumen_cantidad_pagos.getD d.pagos.length := by
  induction entries with
  | nil =>
    intro i g hg
    simp [gruposEnvioDesde] at hg
  | cons e resto ih =>
    rcases e with ⟨nombre, od⟩
    intro i g hg
    cases od with
    | none =>
      rcases ih (i + 1) g (by simpa [gruposEnvioDesde] using hg) with
        ⟨n2, d2, hm, h3, h4, h5⟩
      exact ⟨n2, d2, List.mem_cons_of_mem _ hm, h3, h4, h5⟩
    | some d =>
      simp only [gruposEnvioDesde] at hg
      rcases List.mem_cons.mp hg with h1 | h2
      · exact ⟨nombre, d, List.mem_cons_self _ _, by subst h1; rfl,
               by subst h1; rfl, by subst h1; rfl⟩
      · rcases ih (i + 1) g h2 with ⟨n2, d2, hm, h3, h4, h5⟩
        exact ⟨n2, d2, List.mem_cons_of_mem _ hm, h3, h4, h5⟩

theorem id_en_particion (pagos : List GmailPaymentRecord) (q : GmailPaymentRecord)
    (hq : q ∈ pagos) :
    q.id ∈ idsPagosTarjeta pagos ++ idsPagosBancario pagos := by
  by_cases hb : esBancario q.codigo
  · exact List.mem_append.mpr (Or.inr (List.mem_map.mpr
      ⟨q, List.mem_filter.mpr ⟨hq, by simp [hb]⟩, rfl⟩))
  · exact List.mem_append.mpr (Or.inl (List.mem_map.mpr
      ⟨q, List.mem_filter.mpr ⟨hq, by simp [hb]⟩, rfl⟩))

theorem filasElegibles_tras_registro (db : DB) (e : Envio)
    (u : Nat) (fecha : String) (pid2 : Option Nat)
    (hcov : ∀ r ∈ filasElegibles db u fecha pid2,
      r.id_pago ∈ e.ids_pagos_tarjeta ++ e.ids_pagos_bancario) :
    filasElegibles (dbTrasRegistro db e) u fecha pid2 = [] := by
  have hbp : ∀ pid, buscarProveedor (dbTrasRegistro db e) pid = buscarProveedor db pid :=
    fun _ => rfl
  have hpagos : (dbTrasRegistro db e).pagos = db.pagos := rfl
  apply List.filterMap_eq_nil_iff.mpr
  intro p hp
  rw [hpagos] at hp
  cases hpr : buscarProveedor db p.proveedor_id with
  | none => rw [hbp, hpr]
  | some pr =>
    rw [hbp, hpr]
    show (if (pagoElegible (dbTrasRegistro db e) u fecha p && filtroProveedor pid2 pr) = true
          then some (filaDe p pr) else none) = none
    rw [if_neg]
    intro hcond
    rcases Bool.and_eq_true _ _ |>.mp hcond with ⟨hel2, hfil⟩
    have hpartes := hel2
    simp only [pagoElegible, Bool.and_eq_true] at hpartes
    rcases hpartes with ⟨⟨⟨⟨hu, hest⟩, hact⟩, hclaim⟩, hfecha⟩
    have hdet : (dbTrasRegistro db e).detalle_envio_correo =
        db.detalle_envio_correo ++ (e.ids_pagos_tarjeta ++ e.ids_pagos_bancario) := rfl
    rw [hdet] at hclaim
    simp at hclaim
    have hnodb : ¬ p.id_pago ∈ db.detalle_envio_correo := by
      intro hmem
      exact hclaim.1 hmem
    have hnoextra : ¬ p.id_pago ∈ e.ids_pagos_tarjeta ++ e.ids_pagos_bancario := by
      intro hmem
      rcases List.mem_append.mp hmem with h1 | h1
      · exact hclaim.2.1 h1
      · exact hclaim.2.2 h1
    have hel1 : pagoElegible db u fecha p = true := by
      simp only [pagoElegible, Bool.and_eq_true]
      refine ⟨⟨⟨⟨hu, hest⟩, hact⟩, ?_⟩, hfecha⟩
      simp [hnodb]
    have hrow : filaDe p pr ∈ filasElegibles db u fecha pid2 := by
      apply List.mem_filterMap.mpr
      refine ⟨p, hp, ?_⟩
      rw [hpr]
      show (if (pagoElegible db u fecha p && filtroProveedor pid2 pr) = true
            then some (filaDe p pr) else none) = some (filaDe p pr)
      rw [if_pos (Bool.and_eq_true _ _ |>.mpr ⟨hel1, hfil⟩)]
    exact hnoextra (hcov (filaDe p pr) hrow)

theorem obtenerPagosDirectos_tras_registro (db : DB) (e : Envio)
    (u : Nat) (fecha : String) (pid2 : Option Nat)
    (hcov : ∀ r ∈ obtenerPagosDirectos db u fecha pid2,
      r.id_pago ∈ e.ids_pagos_tarjeta ++ e.ids_pagos_bancario) :
    obtenerPagosDirectos (dbTrasRegistro db e) u fecha pid2 = [] := by
  rw [obtenerPagosDirectos, filasElegibles_tras_registro]
  · rfl
  · intro r hr
    rw [obtenerPagosDirectos] at hcov
    exact hcov r ((mem_ordenarPorNombre r _).mpr hr)

/-- C10: for every dispatch, the report minus its raw webhook field and the
resulting store state are identical across gateway outcomes: the locally
computed send status is never written to the store nor returned. -/
theorem informe_independiente_del_gateway (db : DB) (u pid : Nat)
    (fecha asunto mensaje : Option String) (fl : String)
    (gw1 gw2 : GatewayOutcome) (st : StoreOutcome) :
    informeSinWebhook (enviarCorreoProveedor db u pid fecha asunto mensaje fl gw1 st).1
      = informeSinWebhook (enviarCorreoProveedor db u pid fecha asunto mensaje fl gw2 st).1
    ∧ (enviarCorreoProveedor db u pid fecha asunto mensaje fl gw1 st).2
      = (enviarCorreoProveedor db u pid fecha asunto mensaje fl gw2 st).2 := by
  simp only [enviarCorreoProveedor]
  cases hro : obtenerPagosDirectos db u (oSiVacia fecha fl) (some pid) with
  | nil => constructor <;> trivial
  | cons f resto =>
    cases st with
    | lanzada m => constructor <;> trivial
    | parseado p =>
      cases p with
      | none => constructor <;> trivial
      | some parsed =>
        by_cases h4 : 400 ≤ parsed.status
        · simp only [registrarEnvioCorreoConDetalles, if_pos h4]
          constructor <;> trivial
        · simp only [registrarEnvioCorreoConDetalles, if_neg h4]
          constructor <;> trivial

/-- C8: a summary over a scope with zero eligible records succeeds with the
empty list instead of failing. -/
theorem resumen_vacio_ok (db : DB) (u : Nat) (fecha : Option String) (fl : String)
    (h : obtenerPagosDirectos db u (oSiVacia fecha fl) none = []) :
    getResumenPagosDia db u fecha fl = .ok [] 200 := by
  simp only [getResumenPagosDia]
  rw [h]
  rfl

/-- Witness for resumen_vacio_ok at a store whose only payment has another
date. -/
theorem resumen_vacio_ok_testigo :
    getResumenPagosDia dbUnaTarjeta 1 (some "2024-06-01") "2024-06-01" = .ok [] 200 :=
  resumen_vacio_ok dbUnaTarjeta 1 (some "2024-06-01") "2024-06-01" (by decide)

/-- C4 counterexample: a body whose estado field is falsy (strictly false, or
the number 0) without a truthy code field is classified SENT, not
DELIVERY_ERROR. -/
theorem gateway_estado_falso_contra :
    estadoEnvioDe (GatewayOutcome.respuesta (some ⟨none, some (JsVal.vbool false)⟩))
      = "ENVIADO"
    ∧ estadoEnvioDe (GatewayOutcome.respuesta
        (some ⟨some (JsVal.vnum 1), some (JsVal.vnum 0)⟩)) = "ENVIADO"
    ∧ ("ENVIADO" : String) ≠ "ERROR_WEBHOOK" :=
  ⟨rfl, rfl, by decide⟩

/-- C4 amended: the gateway step is total — every outcome is classified
SENT or DELIVERY_ERROR; a thrown transport error or timeout is
DELIVERY_ERROR, a null body is SENT, and a body is DELIVERY_ERROR exactly
when its code field is truthy and its estado field is strictly false. -/
theorem gateway_clasificacion (gw : GatewayOutcome) :
    (estadoEnvioDe gw = "ENVIADO" ∨ estadoEnvioDe gw = "ERROR_WEBHOOK")
    ∧ (∀ m, estadoEnvioDe (GatewayOutcome.excepcion m) = "ERROR_WEBHOOK")
    ∧ estadoEnvioDe (GatewayOutcome.respuesta none) = "ENVIADO"
    ∧ (∀ b : WebhookBody, estadoEnvioDe (GatewayOutcome.respuesta (some b))
        = "ERROR_WEBHOOK" ↔
        (campoVeraz b.code = true ∧ b.estado = some (JsVal.vbool false))) := by
  refine ⟨?_, fun m => rfl, rfl, ?_⟩
  · cases gw with
    | excepcion m => exact Or.inr rfl
    | respuesta body =>
      cases body with
      | none => exact Or.inl rfl
      | some b =>
        simp only [estadoEnvioDe]
        by_cases hc : (campoVeraz b.code && b.estado == some (JsVal.vbool false)) = true
        · rw [if_pos hc]
          exact Or.inr rfl
        · rw [if_neg hc]
          exact Or.inl rfl
  · intro b
    simp only [estadoEnvioDe]
    by_cases hc : (campoVeraz b.code && b.estado == some (JsVal.vbool false)) = true
    · rw [if_pos hc]
      simp only [Bool.and_eq_true, beq_iff_eq] at hc
      simp [hc]
    · rw [if_neg hc]
      constructor
      · intro he
        exact absurd he (by decide)
      · intro hcc
        exact absurd (by simp [Bool.and_eq_true, beq_iff_eq, hcc.1, hcc.2]) hc

/-- Witness for gateway_clasificacion: a reachable body with a truthy code
and estado strictly false is DELIVERY_ERROR. -/
theorem gateway_clasificacion_testigo :
    estadoEnvioDe (GatewayOutcome.respuesta
      (some ⟨some (JsVal.vnum 500), some (JsVal.vbool false)⟩)) = "ERROR_WEBHOOK" :=
  ((gateway_clasificacion (GatewayOutcome.respuesta
      (some ⟨some (JsVal.vnum 500), some (JsVal.vbool false)⟩))).2.2.2
    ⟨some (JsVal.vnum 500), some (JsVal.vbool false)⟩).mpr (by decide)

/-- C5 counterexample: a record whose code is lowercase banco-001 does not
start with the prefix BANCO-, yet the dispatch split routes it to the
bank-channel identifier set instead of the card-channel set. -/
theorem canal_minusculas_contra :
    idsPagosBancario [⟨1, "Cliente A", 1000, "banco-001"⟩] = [1]
    ∧ idsPagosTarjeta [⟨1, "Cliente A", 1000, "banco-001"⟩] = []
    ∧ esPrefijoDe "BANCO-".data "banco-001".data = false := by decide

/-- C5 amended: the consumed records are split into two identifier sets that
are disjoint and cover them all, where a record goes to the bank set exactly
when its uppercased code starts with BANCO- (the comparison is
case-insensitive), and to the card set otherwise. -/
theorem canal_por_codigo_mayusculas (pagos : List GmailPaymentRecord)
    (hids : (pagos.map (fun p => p.id)).Nodup) (q : GmailPaymentRecord)
    (hq : q ∈ pagos) :
    (q.id ∈ idsPagosBancario pagos ↔ esBancario q.codigo = true)
    ∧ (q.id ∈ idsPagosTarjeta pagos ↔ esBancario q.codigo = false)
    ∧ (∀ i, i ∈ idsPagosTarjeta pagos ++ idsPagosBancario pagos →
        i ∈ pagos.map (fun p => p.id))
    ∧ esBancario q.codigo = esPrefijoDe "BANCO-".data (aMayusculas q.codigo).data := by
  have hinj := List.inj_on_of_nodup_map hids
  refine ⟨⟨?_, ?_⟩, ⟨?_, ?_⟩, ?_, rfl⟩
  · intro hmem
    rcases List.mem_map.mp hmem with ⟨q2, hq2f, hid⟩
    rcases List.mem_filter.mp hq2f with ⟨hq2, hb2⟩
    have : q2 = q := hinj hq2 hq hid
    subst this
    exact hb2
  · intro hb
    exact List.mem_map.mpr ⟨q, List.mem_filter.mpr ⟨hq, hb⟩, rfl⟩
  · intro hmem
    rcases List.mem_map.mp hmem with ⟨q2, hq2f, hid⟩
    rcases List.mem_filter.mp hq2f with ⟨hq2, hb2⟩
    have : q2 = q := hinj hq2 hq hid
    subst this
    simpa using hb2
  · intro hb
    exact List.mem_map.mpr ⟨q, List.mem_filter.mpr ⟨hq, by simp [hb]⟩, rfl⟩
  · intro i hmem
    rcases List.mem_append.mp hmem with h1 | h1
    · rcases List.mem_map.mp h1 with ⟨q2, hq2f, hid⟩
      exact List.mem_map.mpr ⟨q2, (List.mem_filter.mp hq2f).1, hid⟩
    · rcases List.mem_map.mp h1 with ⟨q2, hq2f, hid⟩
      exact List.mem_map.mpr ⟨q2, (List.mem_filter.mp hq2f).1, hid⟩

/-- Witness for canal_por_codigo_mayusculas on a two-record list. -/
theorem canal_por_codigo_mayusculas_testigo :
    (2 : Nat) ∈ idsPagosBancario
      [⟨1, "Cliente A", 1000, "TARJ-001"⟩, ⟨2, "Cliente B", 1550, "BANCO-002"⟩] :=
  (canal_por_codigo_mayusculas
    [⟨1, "Cliente A", 1000, "TARJ-001"⟩, ⟨2, "Cliente B", 1550, "BANCO-002"⟩]
    (by decide) ⟨2, "Cliente B", 1550, "BANCO-002"⟩ (by decide)).1.mpr (by decide)

/-- C6 counterexample: the sent-summary of src/unnamed/part_001 takes its
totals from the stored resumen object — here 999.00 over 5 payments — even
though the single member payment sums to 10.00. -/
theorem totales_cacheados_contra :
    getResumenEnviosFecha (some resumenEnviosCacheado) = .ok [grupoCacheado] 200
    ∧ grupoCacheado.totalMonto = 99900
    ∧ sumaMontos grupoCacheado.pagos = 1000
    ∧ grupoCacheado.totalPagos = 5
    ∧ grupoCacheado.pagos.length = 1 := by decide

/-- C1: at a recipient with one eligible record and a gateway call that
throws, the dispatch still records exactly one Delivery row and the consumed
record becomes ineligible, but the computed DELIVERY_ERROR status is dropped:
the recorded row is identical to the one a successful gateway call records,
so it cannot carry the status the claim requires. -/
theorem estado_envio_no_persistido :
    estadoEnvioDe gwTimeout = "ERROR_WEBHOOK"
    ∧ (enviarCorreoProveedor dbUnaTarjeta 1 7 (some "2024-05-01") none none
        "2024-05-01" gwTimeout stExito).2.envios.length = 1
    ∧ (enviarCorreoProveedor dbUnaTarjeta 1 7 (some "2024-05-01") none none
        "2024-05-01" gwTimeout stExito).2.envios
      = (enviarCorreoProveedor dbUnaTarjeta 1 7 (some "2024-05-01") none none
        "2024-05-01" gwExito stExito).2.envios
    ∧ obtenerPagosDirectos (enviarCorreoProveedor dbUnaTarjeta 1 7
        (some "2024-05-01") none none "2024-05-01" gwTimeout stExito).2
        1 "2024-05-01" (some 7) = [] := by decide

/-- C3 counterexample: when the registration reports a failure after a
successful external call, the coordinator returns the bare store message and
status — the very same response it returns when the external call failed —
with no recipient, record ids, or composed message attached. -/
theorem persistencia_no_distinta_contra :
    (enviarCorreoProveedor dbUnaTarjeta 1 7 (some "2024-05-01") none none
      "2024-05-01" gwExito (.parseado (some ⟨500, some "boom"⟩))).1 = .err "boom" 500
    ∧ (enviarCorreoProveedor dbUnaTarjeta 1 7 (some "2024-05-01") none none
      "2024-05-01" gwTimeout (.parseado (some ⟨500, some "boom"⟩))).1
      = .err "boom" 500 := by decide

/-- C6 amended: every group of the pending summary (getResumenPagosDia)
carries totals recomputed from its member payments; a group of the
sent-summary of src/unnamed/part_001 (getResumenEnviosFecha) takes the stored
resumen totals when the store supplies numeric values, recomputing only as a
fallback. -/
theorem totales_recalculados :
    (∀ (db : DB) (u : Nat) (fecha : Option String) (fl : String)
        (gs : List GmailEmailGroup) (c : Nat),
      getResumenPagosDia db u fecha fl = .ok gs c →
      ∀ g ∈ gs, g.totalMonto = sumaMontos g.pagos ∧ g.totalPagos = g.pagos.length)
    ∧ (∀ (r : ResumenEnviosParsed) (gs : List GmailEmailGroup) (c : Nat),
      getResumenEnviosFecha (some r) = .ok gs c →
      ∀ g ∈ gs, ∃ nombre d, (nombre, some d) ∈ r.data ∧ g.pagos = d.pagos ∧
        g.totalMonto = d.resumen_monto_total.getD (sumaMontos d.pagos) ∧
        g.totalPagos = d.resumen_cantidad_pagos.getD d.pagos.length) := by
  constructor
  · intro db u fecha fl gs c h g hg
    simp only [getResumenPagosDia, ServiceResponse.ok.injEq] at h
    rcases h with ⟨hgs, hc⟩
    subst hgs
    rcases miembro_gruposDesde "pendiente" _ 0 g hg with ⟨k, d, hm, hp, hM, hP⟩
    have hcons : grupoConsistente d :=
      consistente_foldl _ [] (by simp) (k, d) hm
    exact ⟨by rw [hM, hp]; exact hcons.1, by rw [hP, hp]; exact hcons.2⟩
  · intro r gs c h g hg
    simp only [getResumenEnviosFecha] at h
    by_cases h4 : 400 ≤ r.status
    · rw [if_pos h4] at h
      cases h
    · rw [if_neg h4] at h
      simp only [ServiceResponse.ok.injEq] at h
      rcases h with ⟨hgs, hc⟩
      subst hgs
      exact miembro_gruposEnvioDesde r.data 0 g hg

/-- Witness for totales_recalculados on the first group of the two-provider
store. -/
theorem totales_recalculados_testigo :
    grupoAlfa.totalMonto = sumaMontos grupoAlfa.pagos
    ∧ grupoAlfa.totalPagos = grupoAlfa.pagos.length :=
  totales_recalculados.1 dbDosProveedores 1 none "2024-05-01"
    gruposDosProveedores 200 (by decide) grupoAlfa (by decide)

/-- C3 amended: when the registration step reports a failure on a dispatch
with eligible records, the coordinator returns an ordinary failure response
carrying only the store message (or a fixed default) and the store status,
leaves the store unchanged, and returns the very same response whether the
external call succeeded or failed; nothing distinguishes the
after-successful-delivery case and no recipient, record ids, or composed
message are attached. -/
theorem persistencia_error_ordinario (db : DB) (u pid : Nat)
    (fecha asunto mensaje : Option String) (fl : String)
    (gw gw2 : GatewayOutcome) (p : RegistrarParsed)
    (hrows : obtenerPagosDirectos db u (oSiVacia fecha fl) (some pid) ≠ [])
    (hp : 400 ≤ p.status) :
    (enviarCorreoProveedor db u pid fecha asunto mensaje fl gw
        (.parseado (some p))).1
      = .err (oSiVacia p.message "Error registrando el envío de correo") p.status
    ∧ (enviarCorreoProveedor db u pid fecha asunto mensaje fl gw
        (.parseado (some p))).2 = db
    ∧ (enviarCorreoProveedor db u pid fecha asunto mensaje fl gw
        (.parseado (some p))).1
      = (enviarCorreoProveedor db u pid fecha asunto mensaje fl gw2
        (.parseado (some p))).1 := by
  simp only [enviarCorreoProveedor]
  cases hro : obtenerPagosDirectos db u (oSiVacia fecha fl) (some pid) with
  | nil => exact absurd hro hrows
  | cons f resto =>
    simp only [registrarEnvioCorreoConDetalles, if_pos hp]
    refine ⟨?_, ?_, ?_⟩ <;> trivial

/-- Witness for persistencia_error_ordinario at the one-payment store. -/
theorem persistencia_error_ordinario_testigo :
    (enviarCorreoProveedor dbUnaTarjeta 1 7 (some "2024-05-01") none none
      "2024-05-01" gwExito (.parseado (some ⟨503, none⟩))).1
      = .err "Error registrando el envío de correo" 503 :=
  (persistencia_error_ordinario dbUnaTarjeta 1 7 (some "2024-05-01") none none
    "2024-05-01" gwExito gwTimeout ⟨503, none⟩ (by decide) (by decide)).1

/-- C7 counterexample: a present, non-blank override with surrounding blanks
is not used verbatim — the dispatch composes with the trimmed text. -/
theorem composicion_no_literal_contra :
    (enviarCorreoProveedor dbUnaTarjeta 1 7 (some "2024-05-01") (some " Aviso ")
      none "2024-05-01" gwExito stExito).1 = .ok informeAviso 200
    ∧ informeAviso.infoCorreo.asunto = "Aviso"
    ∧ (" Aviso " : String) ≠ "Aviso" := by decide

theorem textoFinal_recortado (s d : String) (h : recortar s ≠ "") :
    textoFinal (some s) d = recortar s := by
  have hs : s ≠ "" := by
    intro he
    subst he
    exact h rfl
  simp only [textoFinal, if_neg hs, if_neg h]

theorem textoFinal_por_defecto (ov : Option String) (d : String)
    (h : ov = none ∨ ∃ s, ov = some s ∧ recortar s = "") :
    textoFinal ov d = d := by
  rcases h with h | ⟨s, hov, hs⟩
  · subst h
    rfl
  · subst hov
    by_cases he : s = ""
    · simp [textoFinal, he]
    · simp [textoFinal, if_neg he, hs]

/-- C7 amended: the dispatch composes with the trimmed override whenever one
is present and non-blank after trimming; otherwise the subject is the fixed
confirmation text followed by the recipient name and the body is the
templated sentence with the count, the two-decimal total and the scope date;
the persisted subject and body are the composed ones. -/
theorem composicion_recortada (db : DB) (u pid : Nat)
    (fecha asunto mensaje : Option String) (fl : String)
    (gw : GatewayOutcome) (st : StoreOutcome) (r : DeliveryReport) (c : Nat)
    (h : (enviarCorreoProveedor db u pid fecha asunto mensaje fl gw st).1 = .ok r c) :
    (∀ s, asunto = some s → recortar s ≠ "" → r.infoCorreo.asunto = recortar s)
    ∧ ((asunto = none ∨ ∃ s, asunto = some s ∧ recortar s = "") →
        r.infoCorreo.asunto = "Confirmación de pagos - " ++ r.infoCorreo.proveedor)
    ∧ (∀ s, mensaje = some s → recortar s ≠ "" → r.infoCorreo.mensaje = recortar s)
    ∧ ((mensaje = none ∨ ∃ s, mensaje = some s ∧ recortar s = "") →
        r.infoCorreo.mensaje = mensajeDefecto r.infoCorreo.cantidad_pagos
          r.infoCorreo.monto_total r.infoCorreo.fecha)
    ∧ r.envio.asunto_correo = r.infoCorreo.asunto
    ∧ r.envio.cuerpo_correo = r.infoCorreo.mensaje := by
  cases hro : obtenerPagosDirectos db u (oSiVacia fecha fl) (some pid) with
  | nil =>
    simp [enviarCorreoProveedor, hro] at h
  | cons f resto =>
    cases st with
    | lanzada m =>
      simp [enviarCorreoProveedor, hro] at h
    | parseado p =>
      cases p with
      | none =>
        simp [enviarCorreoProveedor, hro, registrarEnvioCorreoConDetalles] at h
      | some parsed =>
        by_cases h4 : 400 ≤ parsed.status
        · simp [enviarCorreoProveedor, hro, registrarEnvioCorreoConDetalles, h4] at h
        · simp only [enviarCorreoProveedor, hro, registrarEnvioCorreoConDetalles,
            if_neg h4] at h
          rcases (ServiceResponse.ok.injEq _ _ _ _).mp h with ⟨hr, hc⟩
          subst hr
          refine ⟨?_, ?_, ?_, ?_, rfl, rfl⟩
          · intro s hs hne
            subst hs
            exact textoFinal_recortado s _ hne
          · intro hdef
            exact textoFinal_por_defecto asunto _ hdef
          · intro s hs hne
            subst hs
            exact textoFinal_recortado s _ hne
          · intro hdef
            exact textoFinal_por_defecto mensaje _ hdef

/-- Witness for composicion_recortada: the blank-padded override " Aviso "
is composed as its trimmed form. -/
theorem composicion_recortada_testigo :
    informeAviso.infoCorreo.asunto = recortar " Aviso " :=
  (composicion_recortada dbUnaTarjeta 1 7 (some "2024-05-01") (some " Aviso ")
    none "2024-05-01" gwExito stExito informeAviso 200 (by decide)).1
    " Aviso " rfl (by decide)

/-- C2: a dispatch whose scope has no eligible records fails with the
NoEligibleRecords response and an unchanged store, whatever the external
outcomes would have been; and after any successful dispatch the same scope
has no eligible records left, so a repeat dispatch finds nothing. -/
theorem despacho_sin_elegibles (db : DB) (u pid : Nat)
    (fecha asunto mensaje : Option String) (fl : String)
    (gw : GatewayOutcome) (st : StoreOutcome) :
    (obtenerPagosDirectos db u (oSiVacia fecha fl) (some pid) = [] →
      enviarCorreoProveedor db u pid fecha asunto mensaje fl gw st =
        (.err "No se encontraron pagos pendientes para este proveedor (Pagado + Activo)."
          404, db))
    ∧ (∀ (r : DeliveryReport) (c : Nat),
        (enviarCorreoProveedor db u pid fecha asunto mensaje fl gw st).1 = .ok r c →
        obtenerPagosDirectos
          (enviarCorreoProveedor db u pid fecha asunto mensaje fl gw st).2
          u (oSiVacia fecha fl) (some pid) = []) := by
  constructor
  · intro h
    simp [enviarCorreoProveedor, h]
  · intro r c h
    cases hro : obtenerPagosDirectos db u (oSiVacia fecha fl) (some pid) with
    | nil =>
      simp [enviarCorreoProveedor, hro] at h
    | cons f resto =>
      cases st with
      | lanzada m =>
        simp [enviarCorreoProveedor, hro] at h
      | parseado p =>
        cases p with
        | none =>
          simp [enviarCorreoProveedor, hro, registrarEnvioCorreoConDetalles] at h
        | some parsed =>
          by_cases h4 : 400 ≤ parsed.status
          · simp [enviarCorreoProveedor, hro, registrarEnvioCorreoConDetalles, h4] at h
          · simp only [enviarCorreoProveedor, hro, registrarEnvioCorreoConDetalles,
              if_neg h4]
            apply obtenerPagosDirectos_tras_registro
            intro row hrow
            rw [hro] at hrow
            have hpm : registroDeFila row ∈ List.map registroDeFila (f :: resto) :=
              List.mem_map.mpr ⟨row, hrow, rfl⟩
            exact id_en_particion (List.map registroDeFila (f :: resto))
              (registroDeFila row) hpm

/-- Witness for despacho_sin_elegibles: a dispatch for provider 9 (no
records) fails with 404 and no store change, and after the successful
dispatch for provider 7 the same scope is empty. -/
theorem despacho_sin_elegibles_testigo :
    enviarCorreoProveedor dbUnaTarjeta 1 9 (some "2024-05-01") none none
      "2024-05-01" gwExito stExito =
      (.err "No se encontraron pagos pendientes para este proveedor (Pagado + Activo)."
        404, dbUnaTarjeta)
    ∧ obtenerPagosDirectos (enviarCorreoProveedor dbUnaTarjeta 1 7
        (some "2024-05-01") none none "2024-05-01" gwExito stExito).2
        1 "2024-05-01" (some 7) = [] :=
  ⟨(despacho_sin_elegibles dbUnaTarjeta 1 9 (some "2024-05-01") none none
      "2024-05-01" gwExito stExito).1 (by decide),
   (despacho_sin_elegibles dbUnaTarjeta 1 7 (some "2024-05-01") none none
      "2024-05-01" gwExito stExito).2 informeExito 200 (by decide)⟩

/-- C9: the groups a summary returns are sorted by recipient display name,
ascending, in case-sensitive byte order. -/
theorem resumen_ordenado_por_nombre (db : DB) (u : Nat) (fecha : Option String)
    (fl : String) (gs : List GmailEmailGroup) (c : Nat)
    (h : getResumenPagosDia db u fecha fl = .ok gs c) :
    gs.Pairwise (fun a b => nombreLe a.proveedorNombre b.proveedorNombre = true) := by
  simp only [getResumenPagosDia, ServiceResponse.ok.injEq] at h
  rcases h with ⟨hgs, hc⟩
  subst hgs
  have hsorted : (obtenerPagosDirectos db u (oSiVacia fecha fl) none).Pairwise filaLe := by
    rw [obtenerPagosDirectos]
    exact pairwise_ordenarPorNombre _
  have hkeys := claves_foldl_pairwise
    (obtenerPagosDirectos db u (oSiVacia fecha fl) none) []
    (by simp [claves]) (by simp [claves]) hsorted
  have hnames := nombres_gruposDesde "pendiente"
    ((obtenerPagosDirectos db u (oSiVacia fecha fl) none).foldl agregarFila []) 0
  rw [← hnames] at hkeys
  have hpair := (List.pairwise_map).mp hkeys
  refine hpair.imp ?_
  intro a b hab
  simp only [claveLe] at hab
  simp [nombreLe, hab]

/-- Witness for resumen_ordenado_por_nombre on the two-provider store. -/
theorem resumen_ordenado_por_nombre_testigo :
    gruposDosProveedores.Pairwise
      (fun a b => nombreLe a.proveedorNombre b.proveedorNombre = true) :=
  resumen_ordenado_por_nombre dbDosProveedores 1 none "2024-05-01"
    gruposDosProveedores 200 (by decide)

end GmailGen